import Mathlib

/-
  Verification development for the ARStream2 RTP-to-access-unit pipeline
  (libARStream2 headers: arstream2_rtp_receiver.h, arstream2_h264_filter.h,
  arstream2_stream_receiver.h).  The repository ships only the public header
  files; the behaviour of the implementation is therefore modelled from the
  specification document and from the contracts written in the header
  documentation, as a shallow embedding in Lean.
-/

namespace ARStream2

/-- Modelled from the spec: the subset of the eARSTREAM2_ERROR codes that the
specified behaviour distinguishes (arstream2_error.h is not part of the
sources; only the codes named by the header contracts are modelled). -/
inductive eARSTREAM2_ERROR where
  | OK
  | ERROR_BUSY
  | ERROR_BAD_PARAMETERS
  | ERROR_WAITING_FOR_SYNC
  | ERROR_RESOURCE_UNAVAILABLE
  | ERROR_RESYNC_REQUIRED
  deriving DecidableEq

/-- Causes for the NAL unit callback function, from
arstream2_rtp_receiver.h (eARSTREAM2_RTP_RECEIVER_CAUSE; the MAX sentinel of
the C enum is omitted). -/
inductive eARSTREAM2_RTP_RECEIVER_CAUSE where
  | NALU_COMPLETE
  | NALU_BUFFER_TOO_SMALL
  | NALU_COPY_COMPLETE
  | CANCEL
  deriving DecidableEq

/-- AU synchronization type, from arstream2_h264_filter.h
(eARSTREAM2_H264_FILTER_AU_SYNC_TYPE; the MAX sentinel is omitted). -/
inductive eARSTREAM2_H264_FILTER_AU_SYNC_TYPE where
  | NONE
  | IDR
  | IFRAME
  | PIR_START
  deriving DecidableEq

/-- Macroblock status, from arstream2_h264_filter.h
(eARSTREAM2_H264_FILTER_MACROBLOCK_STATUS; the MAX sentinel is omitted). -/
inductive eARSTREAM2_H264_FILTER_MACROBLOCK_STATUS where
  | UNKNOWN
  | VALID_ISLICE
  | VALID_PSLICE
  | MISSING_CONCEALED
  | MISSING
  | ERROR_PROPAGATION
  deriving DecidableEq

/-- H264Filter configuration, from arstream2_h264_filter.h
(ARSTREAM2_H264Filter_Config_t; the C int flags are modelled as Bool). -/
structure ARSTREAM2_H264Filter_Config_t where
  waitForSync : Bool
  outputIncompleteAu : Bool
  filterOutSpsPps : Bool
  filterOutSei : Bool
  replaceStartCodesWithNaluSize : Bool
  generateSkippedPSlices : Bool
  generateFirstGrayIFrame : Bool
  deriving DecidableEq

/-- Modelled from the spec: the NAL unit kinds the pipeline's resilience
decisions distinguish (section 4.5/4.6 of the spec; the implementation that
parses NAL headers is not under src/).  Slice kinds carry the first-macroblock
index and the number of macroblocks covered, recovered from the slice header;
an SPS carries the frame dimensions in macroblocks. -/
inductive H264NaluType where
  | sps (mbWidth mbHeight : Nat)
  | pps
  | sliceIdr (firstMb numMbs : Nat)
  | sliceIntra (firstMb numMbs : Nat)
  | sliceInter (firstMb numMbs : Nat)
  | sei
  | other
  deriving DecidableEq

/-- Modelled from the spec: a reconstructed NAL unit as handed to the
access-unit assembler (spec section 3: a byte range tagged with type,
last-in-AU flag and AU timestamp; the byte payload itself plays no role in
the claims and is not modelled). -/
structure H264Nalu where
  auTimestamp : Nat
  isLastNaluInAu : Bool
  naluType : H264NaluType
  deriving DecidableEq

/-- Macroblock status grid storage (spec section 3: a 2-D array stored as a
flat list of width times height cells). -/
abbrev MbGrid := List eARSTREAM2_H264_FILTER_MACROBLOCK_STATUS

/-- Modelled from the spec: state of the H264 filter pipeline
(parameter-set cache and sync gate, access-unit assembler, macroblock status
grid; spec sections 4.4, 4.5 and 4.6). -/
structure H264FilterState where
  auOpenTs : Option Nat
  auNalus : List H264Nalu
  lastAuTs : Option Nat
  hasSps : Bool
  hasPps : Bool
  mbDims : Option (Nat × Nat)
  mbGrid : Option MbGrid
  grayFrameDone : Bool
  droppedNaluCount : Nat
  droppedAuCount : Nat
  deriving DecidableEq

/-- Modelled from the spec: the initial state of a freshly initialized
filter: no AU open, no parameter sets cached, no grid allocated. -/
def initialFilterState : H264FilterState :=
  { auOpenTs := none
    auNalus := []
    lastAuTs := none
    hasSps := false
    hasPps := false
    mbDims := none
    mbGrid := none
    grayFrameDone := false
    droppedNaluCount := 0
    droppedAuCount := 0 }

/-- Modelled from the spec: ARSTREAM2_H264Filter_Init validates the
configuration synchronously; generate-first-gray-I-frame requires
wait-for-sync to be enabled (arstream2_h264_filter.h line 67 and spec
sections 6 and 7).  On a configuration error no instance is produced. -/
def ARSTREAM2_H264Filter_Init (config : ARSTREAM2_H264Filter_Config_t) :
    Except eARSTREAM2_ERROR H264FilterState :=
  if config.generateFirstGrayIFrame && !config.waitForSync then
    .error .ERROR_BAD_PARAMETERS
  else
    .ok initialFilterState

/-- Sync gate of the parameter-set cache (spec section 4.4): true once at
least one SPS and one PPS are cached. -/
def filterSynced (s : H264FilterState) : Bool :=
  s.hasSps && s.hasPps

/-- True when the NAL unit is an IDR slice. -/
def naluIsIdrSlice (n : H264Nalu) : Bool :=
  match n.naluType with
  | .sliceIdr _ _ => true
  | _ => false

/-- True when the NAL unit is an intra-only non-IDR slice. -/
def naluIsIntraSlice (n : H264Nalu) : Bool :=
  match n.naluType with
  | .sliceIntra _ _ => true
  | _ => false

/-- Modelled from the spec: sync-type classification on seal (spec section
4.5): IDR if any contained NAL unit is an IDR slice; else I-frame if any is
intra-only; else periodic-intra-refresh start if the configured marker
condition holds; else none.  Total on arbitrary (also mixed, non-conformant)
NAL unit lists. -/
def auSyncTypeOnSeal (nalus : List H264Nalu) (pirMarker : Bool) :
    eARSTREAM2_H264_FILTER_AU_SYNC_TYPE :=
  if nalus.any naluIsIdrSlice then .IDR
  else if nalus.any naluIsIntraSlice then .IFRAME
  else if pirMarker then .PIR_START
  else .NONE

/-- Mark the macroblock range of one slice in the status grid, cell by cell
(spec section 4.6).  Out-of-range indices leave the grid unchanged, as
List.set does. -/
def markMbRange : MbGrid → Nat → Nat →
    eARSTREAM2_H264_FILTER_MACROBLOCK_STATUS → MbGrid
  | grid, _, 0, _ => grid
  | grid, firstMb, numMbs + 1, status =>
      markMbRange (grid.set firstMb status) (firstMb + 1) numMbs status

/-- The macroblock range and status contributed by one NAL unit: I-slices
mark valid-in-I-slice, P-slices mark valid-in-P-slice, non-slice NAL units
contribute nothing (spec section 4.6). -/
def naluSliceMark (n : H264Nalu) :
    Option (Nat × Nat × eARSTREAM2_H264_FILTER_MACROBLOCK_STATUS) :=
  match n.naluType with
  | .sliceIdr f c => some (f, c, .VALID_ISLICE)
  | .sliceIntra f c => some (f, c, .VALID_ISLICE)
  | .sliceInter f c => some (f, c, .VALID_PSLICE)
  | _ => none

/-- Modelled from the spec: on each sealed AU the grid is refreshed in place
from the slice coverage of the AU's NAL units (spec section 4.6; the
concealment policy for uncovered cells is an explicit open question of the
spec and is left as cells keeping their previous status). -/
def refreshMbGrid : MbGrid → List H264Nalu → MbGrid
  | grid, [] => grid
  | grid, n :: ns =>
      match naluSliceMark n with
      | some (f, c, st) => refreshMbGrid (markMbRange grid f c st) ns
      | none => refreshMbGrid grid ns

/-- Observable output of one AU-ready notification (spec section 6):
timestamp, completeness, sync type, whether the AU is the synthetic full-gray
placeholder, the sync-gate value at seal time, and the macroblock status grid
with its dimensions as observable through GetFrameMacroblockStatus during the
notification (none when no SPS dimensions are known). -/
structure AuReadyEvent where
  auTimestamp : Nat
  complete : Bool
  auSyncType : eARSTREAM2_H264_FILTER_AU_SYNC_TYPE
  isGrayPlaceholder : Bool
  syncedAtSeal : Bool
  gridObs : Option (MbGrid × Nat × Nat)
  deriving DecidableEq

/-- Projection of an AU-ready event to the pair observed by the ordering and
completeness claims: (timestamp, completeness flag). -/
def auEventKey (e : AuReadyEvent) : Nat × Bool :=
  (e.auTimestamp, e.complete)

/-- Modelled from the spec: parameter-set cache update on one NAL unit (spec
sections 3 and 4.4): an SPS is cached replace-on-change; replacing the active
SPS with different dimensions invalidates the macroblock status grid and
resizes it to the new width times height, all cells unknown. -/
def observeParamCache (s : H264FilterState) (n : H264Nalu) : H264FilterState :=
  match n.naluType with
  | .sps w h =>
      if s.mbDims = some (w, h) then { s with hasSps := true }
      else
        { s with
            hasSps := true
            mbDims := some (w, h)
            mbGrid := some (List.replicate (w * h) .UNKNOWN) }
  | .pps => { s with hasPps := true }
  | _ => s

/-- Modelled from the spec: when wait-for-sync and generate-first-gray-I-frame
are enabled and the sync gate turns true, a synthetic full-gray placeholder AU
(all macroblocks missing-concealed) is emitted once, immediately, so a
downstream decoder can initialize geometry (spec section 4.4). -/
def grayIFrameEvents (config : ARSTREAM2_H264Filter_Config_t)
    (before after : H264FilterState) : H264FilterState × List AuReadyEvent :=
  if config.waitForSync && config.generateFirstGrayIFrame &&
      !after.grayFrameDone && !filterSynced before && filterSynced after then
    match after.mbDims with
    | some (w, h) =>
        ({ after with grayFrameDone := true },
         [{ auTimestamp := 0
            complete := true
            auSyncType := .IDR
            isGrayPlaceholder := true
            syncedAtSeal := true
            gridObs := some (List.replicate (w * h) .MISSING_CONCEALED, w, h) }])
    | none => (after, [])
  else (after, [])

/-- Parameter-set observation stage of processing one NAL unit: cache update
followed by the possible one-shot gray placeholder emission. -/
def observeParameterSets (config : ARSTREAM2_H264Filter_Config_t)
    (s : H264FilterState) (n : H264Nalu) : H264FilterState × List AuReadyEvent :=
  grayIFrameEvents config s (observeParamCache s n)

/-- Modelled from the spec: sealing the currently collected AU (spec section
4.5).  The AU-ready notification fires only when the sync gate is open (or
wait-for-sync is disabled) and the AU is complete (or incomplete output is
configured); otherwise the AU is dropped and counted.  On emission the
macroblock status grid is refreshed in place from the AU's slice coverage and
exposed together with the active SPS dimensions (spec section 4.6). -/
def sealCurrentAu (config : ARSTREAM2_H264Filter_Config_t)
    (pirCond : List H264Nalu → Bool) (s : H264FilterState)
    (ts : Nat) (complete : Bool) : H264FilterState × List AuReadyEvent :=
  let nalus := s.auNalus
  let synced := filterSynced s
  let sClosed : H264FilterState :=
    { s with auOpenTs := none, auNalus := [], lastAuTs := some ts }
  if (synced || !config.waitForSync) && (complete || config.outputIncompleteAu) then
    match s.mbDims with
    | some (w, h) =>
        let g := refreshMbGrid ((s.mbGrid).getD (List.replicate (w * h) .UNKNOWN)) nalus
        ({ sClosed with mbGrid := some g },
         [{ auTimestamp := ts
            complete := complete
            auSyncType := auSyncTypeOnSeal nalus (pirCond nalus)
            isGrayPlaceholder := false
            syncedAtSeal := synced
            gridObs := some (g, w, h) }])
    | none =>
        (sClosed,
         [{ auTimestamp := ts
            complete := complete
            auSyncType := auSyncTypeOnSeal nalus (pirCond nalus)
            isGrayPlaceholder := false
            syncedAtSeal := synced
            gridObs := none }])
  else
    ({ sClosed with droppedAuCount := s.droppedAuCount + 1 }, [])

/-- True when a NAL unit timestamp belongs to an AU that was already sealed:
the assembler must not reopen a sealed AU (spec section 8, stray-unit
scenario). -/
def staleTs (lastAuTs : Option Nat) (ts : Nat) : Bool :=
  match lastAuTs with
  | none => false
  | some l => decide (ts ≤ l)

/-- Modelled from the spec: access-unit assembler transition on one NAL unit
(spec section 4.5).  First NAL unit of a new timestamp opens an AU; a NAL
unit marked last-in-AU seals it complete; a newer timestamp while collecting
force-seals the current AU as incomplete and opens the new one; a stray NAL
unit with an older (or already sealed) timestamp is dropped and counted. -/
def processNaluAssemble (config : ARSTREAM2_H264Filter_Config_t)
    (pirCond : List H264Nalu → Bool) (s : H264FilterState) (n : H264Nalu) :
    H264FilterState × List AuReadyEvent :=
  match s.auOpenTs with
  | none =>
      if staleTs s.lastAuTs n.auTimestamp then
        ({ s with droppedNaluCount := s.droppedNaluCount + 1 }, [])
      else
        let sOpen : H264FilterState :=
          { s with auOpenTs := some n.auTimestamp, auNalus := [n] }
        if n.isLastNaluInAu then
          sealCurrentAu config pirCond sOpen n.auTimestamp true
        else (sOpen, [])
  | some ts =>
      if n.auTimestamp = ts then
        let sAcc : H264FilterState := { s with auNalus := s.auNalus ++ [n] }
        if n.isLastNaluInAu then sealCurrentAu config pirCond sAcc ts true
        else (sAcc, [])
      else if ts < n.auTimestamp then
        let r1 := sealCurrentAu config pirCond s ts false
        let sOpen : H264FilterState :=
          { r1.1 with auOpenTs := some n.auTimestamp, auNalus := [n] }
        if n.isLastNaluInAu then
          let r2 := sealCurrentAu config pirCond sOpen n.auTimestamp true
          (r2.1, r1.2 ++ r2.2)
        else (sOpen, r1.2)
      else
        ({ s with droppedNaluCount := s.droppedNaluCount + 1 }, [])

/-- Modelled from the spec: full processing of one NAL unit delivered by the
RTP receiver callback path: parameter-set cache and sync gate first, then the
access-unit assembler (spec sections 4.4 and 4.5). -/
def h264FilterStep (config : ARSTREAM2_H264Filter_Config_t)
    (pirCond : List H264Nalu → Bool) (s : H264FilterState) (n : H264Nalu) :
    H264FilterState × List AuReadyEvent :=
  let r1 := observeParameterSets config s n
  let r2 := processNaluAssemble config pirCond r1.1 n
  (r2.1, r1.2 ++ r2.2)

/-- Run of the filter pipeline over a sequence of NAL units, accumulating the
AU-ready notifications in order. -/
def h264FilterRun (config : ARSTREAM2_H264Filter_Config_t)
    (pirCond : List H264Nalu → Bool) :
    H264FilterState → List H264Nalu → H264FilterState × List AuReadyEvent
  | s, [] => (s, [])
  | s, n :: ns =>
      let r := h264FilterStep config pirCond s n
      let rr := h264FilterRun config pirCond r.1 ns
      (rr.1, r.2 ++ rr.2)

/-- Encode the body of one access unit as NAL units sharing one timestamp,
with exactly the final unit marked last-in-AU (the shape of a lossless,
well-formed AU in the input stream). -/
def encodeAuNalus (ts : Nat) : List H264NaluType → List H264Nalu
  | [] => []
  | [t] => [{ auTimestamp := ts, isLastNaluInAu := true, naluType := t }]
  | t :: u :: rest =>
      { auTimestamp := ts, isLastNaluInAu := false, naluType := t } ::
        encodeAuNalus ts (u :: rest)

/-- Encode a lossless input stream from a list of (timestamp, AU body)
groups. -/
def encodeAuStream : List (Nat × List H264NaluType) → List H264Nalu
  | [] => []
  | g :: gs => encodeAuNalus g.1 g.2 ++ encodeAuStream gs

/-- Size invariant of the macroblock status grid (spec sections 3 and 4.6):
whenever a grid is allocated, its cell count equals the active SPS
width-in-macroblocks times height-in-macroblocks. -/
def gridSizedInv (s : H264FilterState) : Prop :=
  ∀ w h g, s.mbDims = some (w, h) → s.mbGrid = some g → g.length = w * h

/-- Modelled from the spec: state of an RtpReceiver as far as the stop and
delete contracts observe it (arstream2_rtp_receiver.h): whether the receive
loop is still running, whether the outstanding NAL unit buffer has been
released through the cancellation notice, and whether a buffer invalidation
has been requested. -/
structure ARSTREAM2_RtpReceiver_t where
  running : Bool
  naluBufferCancelled : Bool
  invalidateRequested : Bool
  deriving DecidableEq

/-- Modelled from the spec: ARSTREAM2_RtpReceiver_Stop makes the receive loop
exit and releases the outstanding buffer via the cancellation notice
(arstream2_rtp_receiver.h lines 180 to 188 and spec section 5); the header
documents that calling it multiple times has no effect. -/
def ARSTREAM2_RtpReceiver_Stop (receiver : ARSTREAM2_RtpReceiver_t) :
    ARSTREAM2_RtpReceiver_t :=
  { receiver with running := false, naluBufferCancelled := true }

/-- Modelled from the spec: ARSTREAM2_RtpReceiver_InvalidateNaluBuffer
requests that the current NAL unit buffer be replaced; the header documents
that calling it multiple times has no effect
(arstream2_rtp_receiver.h lines 167 to 177). -/
def ARSTREAM2_RtpReceiver_InvalidateNaluBuffer (receiver : ARSTREAM2_RtpReceiver_t) :
    ARSTREAM2_RtpReceiver_t :=
  { receiver with invalidateRequested := true }

/-- State of one NAL unit buffer reference held by the consumer. -/
inductive NaluBufferRef where
  | active
  | cancelled
  deriving DecidableEq

/-- Modelled from the spec: delivering the cancellation notice
(ARSTREAM2_RTP_RECEIVER_CAUSE_CANCEL) for a buffer reference; cancelling an
already-cancelled reference is a no-op and reports no error (spec section 8,
idempotence property). -/
def cancelNaluBuffer (b : NaluBufferRef) : NaluBufferRef × eARSTREAM2_ERROR :=
  match b with
  | .active => (.cancelled, .OK)
  | .cancelled => (.cancelled, .OK)

/-- Modelled from the spec: ARSTREAM2_RtpReceiver_Delete
(arstream2_rtp_receiver.h lines 191 to 203): on a still-running receiver it
returns ARSTREAM2_ERROR_BUSY and leaves the receiver pointer unchanged; only
on success is the pointer set to NULL (here: none). -/
def ARSTREAM2_RtpReceiver_Delete (receiver : Option ARSTREAM2_RtpReceiver_t) :
    eARSTREAM2_ERROR × Option ARSTREAM2_RtpReceiver_t :=
  match receiver with
  | none => (.ERROR_BAD_PARAMETERS, none)
  | some r => if r.running then (.ERROR_BUSY, some r) else (.OK, none)

/-- Outcome of the mid-write buffer overflow negotiation (spec section 4.2):
the callback causes issued in order, the bytes present in the new buffer when
writing resumes, the event at which the old buffer ceases to be referenced,
and whether the current NAL unit was skipped or a fatal error raised. -/
structure NaluOverflowOutcome where
  callbackCauses : List eARSTREAM2_RTP_RECEIVER_CAUSE
  resumedBufferBytes : Option (List Nat)
  oldBufferReleaseCause : Option eARSTREAM2_RTP_RECEIVER_CAUSE
  naluSkipped : Bool
  fatal : Bool
  deriving DecidableEq

/-- Modelled from the spec: the core's handling of a buffer proving too small
mid-write (spec section 4.2 and the notes of
ARSTREAM2_RtpReceiver_NaluCallback_t): it issues a buffer-too-small request;
if the consumer returns a buffer of at least the requested size, the
already-written bytes are copied into it, writing resumes, and the old buffer
stays referenced until the distinct copy-complete cause is delivered; a NULL
or too-small reply skips the current NAL unit and is not fatal. -/
def handleNaluBufferOverflow (writtenBytes : List Nat) (requestedSize : Nat)
    (consumerBufferSize : Option Nat) : NaluOverflowOutcome :=
  match consumerBufferSize with
  | none =>
      { callbackCauses := [.NALU_BUFFER_TOO_SMALL]
        resumedBufferBytes := none
        oldBufferReleaseCause := none
        naluSkipped := true
        fatal := false }
  | some newSize =>
      if newSize < requestedSize then
        { callbackCauses := [.NALU_BUFFER_TOO_SMALL]
          resumedBufferBytes := none
          oldBufferReleaseCause := none
          naluSkipped := true
          fatal := false }
      else
        { callbackCauses := [.NALU_BUFFER_TOO_SMALL, .NALU_COPY_COMPLETE]
          resumedBufferBytes := some writtenBytes
          oldBufferReleaseCause := some .NALU_COPY_COMPLETE
          naluSkipped := false
          fatal := false }

/-- Parameter-set cache contents as observed by GetSpsPps: the cached SPS and
PPS NAL unit bytes, when available. -/
structure SpsPpsCache where
  sps : Option (List Nat)
  pps : Option (List Nat)
  deriving DecidableEq

/-- Result of one ARSTREAM2_H264Filter_GetSpsPps call: an error code, the
required sizes (size-query call with both buffer pointers NULL), or the
filled buffers. -/
inductive GetSpsPpsResult where
  | failed (err : eARSTREAM2_ERROR)
  | sizeQuery (spsSize ppsSize : Nat)
  | filled (spsBytes ppsBytes : List Nat)
  deriving DecidableEq

/-- Modelled from the spec: ARSTREAM2_H264Filter_GetSpsPps
(arstream2_h264_filter.h lines 234 to 251): without a cached SPS/PPS pair it
returns ARSTREAM2_ERROR_WAITING_FOR_SYNC; a call with both buffer pointers
NULL returns the required sizes without writing any buffer; a call with user
buffers of at least those sizes succeeds and fills them. -/
def ARSTREAM2_H264Filter_GetSpsPps (cache : SpsPpsCache)
    (spsBufferSize ppsBufferSize : Option Nat) : GetSpsPpsResult :=
  match cache.sps, cache.pps with
  | some s, some p =>
      match spsBufferSize, ppsBufferSize with
      | none, none => .sizeQuery s.length p.length
      | some cs, some cp =>
          if s.length ≤ cs && p.length ≤ cp then .filled s p
          else .failed .ERROR_BAD_PARAMETERS
      | _, _ => .failed .ERROR_BAD_PARAMETERS
  | _, _ => .failed .ERROR_WAITING_FOR_SYNC

/-- Modelled from the spec: one RTP packet as seen by the loss-tracking part
of the packet receiver and NAL reassembler (spec sections 4.1 and 4.3): its
RTP sequence number, the AU timestamp it carries, and whether it is the last
fragment of the NAL unit it belongs to. -/
structure RtpNaluPacket where
  seq : Nat
  auTimestamp : Nat
  isLastFragment : Bool
  deriving DecidableEq

/-- Loss-tracking state of the packet receiver: the last received sequence
number and the missing-packet count accumulated since the previous completed
NAL unit (spec sections 4.1 and 4.3). -/
structure RtpRecvState where
  lastSeq : Option Nat
  pendingMissing : Nat
  deriving DecidableEq

/-- A reconstructed NAL unit as tagged by the reassembler: its AU timestamp
and the missing-packet count attached to it. -/
structure TaggedNalu where
  auTimestamp : Nat
  missingPacketsBefore : Nat
  deriving DecidableEq

/-- Number of sequence numbers missing between the previously received packet
and a packet with the given sequence number (0 when none was received yet). -/
def seqGapAfter (lastSeq : Option Nat) (seq : Nat) : Nat :=
  match lastSeq with
  | none => 0
  | some l => seq - l - 1

/-- Modelled from the spec: processing one packet (spec sections 4.1 and
4.3): gaps in sequence number add to the pending missing-packet count; when a
packet completes a NAL unit, the accumulated count is attached to that NAL
unit and the counter resets to zero. -/
def rtpReceiverProcessPacket (s : RtpRecvState) (p : RtpNaluPacket) :
    RtpRecvState × Option TaggedNalu :=
  let pending := s.pendingMissing + seqGapAfter s.lastSeq p.seq
  if p.isLastFragment then
    ({ lastSeq := some p.seq, pendingMissing := 0 },
     some { auTimestamp := p.auTimestamp, missingPacketsBefore := pending })
  else
    ({ lastSeq := some p.seq, pendingMissing := pending }, none)

/-- Run of the loss-tracking receiver over a packet list, accumulating the
tagged NAL units in order. -/
def rtpReceiverRun : RtpRecvState → List RtpNaluPacket → RtpRecvState × List TaggedNalu
  | s, [] => (s, [])
  | s, p :: ps =>
      let r := rtpReceiverProcessPacket s p
      let rr := rtpReceiverRun r.1 ps
      (rr.1, r.2.toList ++ rr.2)

/-- The packets carrying one NAL unit: m non-final fragments followed by one
final fragment, with consecutive sequence numbers starting at startSeq, all
tagged with one AU timestamp. -/
def mkNaluFragments (startSeq ts : Nat) : Nat → List RtpNaluPacket
  | 0 => [{ seq := startSeq, auTimestamp := ts, isLastFragment := true }]
  | m + 1 =>
      { seq := startSeq, auTimestamp := ts, isLastFragment := false } ::
        mkNaluFragments (startSeq + 1) ts m

/-- Trivial periodic-intra-refresh marker condition used by concrete runs. -/
def constFalsePir : List H264Nalu → Bool := fun _ => false

/-- Concrete configuration with the sync gate disabled and all other options
off, used by concrete runs. -/
def witnessCfgNoWait : ARSTREAM2_H264Filter_Config_t :=
  { waitForSync := false
    outputIncompleteAu := false
    filterOutSpsPps := false
    filterOutSei := false
    replaceStartCodesWithNaluSize := false
    generateSkippedPSlices := false
    generateFirstGrayIFrame := false }

/-- Concrete configuration with the sync gate enabled and all other options
off, used by concrete runs. -/
def witnessCfgWait : ARSTREAM2_H264Filter_Config_t :=
  { waitForSync := true
    outputIncompleteAu := false
    filterOutSpsPps := false
    filterOutSei := false
    replaceStartCodesWithNaluSize := false
    generateSkippedPSlices := false
    generateFirstGrayIFrame := false }

/-- Concrete invalid configuration: gray I-frame generation requested without
wait-for-sync. -/
def witnessCfgGrayNoWait : ARSTREAM2_H264Filter_Config_t :=
  { waitForSync := false
    outputIncompleteAu := false
    filterOutSpsPps := false
    filterOutSei := false
    replaceStartCodesWithNaluSize := false
    generateSkippedPSlices := false
    generateFirstGrayIFrame := true }

/-- Concrete lossless two-AU input stream, as timestamp groups. -/
def witnessGroups : List (Nat × List H264NaluType) :=
  [(5, [.sps 2 2, .pps, .sliceIdr 0 4]), (9, [.sliceInter 0 4])]

/-- Concrete input stream delivering SPS, PPS and one IDR AU at one
timestamp. -/
def witnessNaluStream : List H264Nalu :=
  [{ auTimestamp := 4, isLastNaluInAu := false, naluType := .sps 2 2 },
   { auTimestamp := 4, isLastNaluInAu := false, naluType := .pps },
   { auTimestamp := 4, isLastNaluInAu := true, naluType := .sliceIdr 0 4 }]

/-- Placeholder AU-ready event used as the default of headD. -/
def auEventDefault : AuReadyEvent :=
  { auTimestamp := 0
    complete := false
    auSyncType := .NONE
    isGrayPlaceholder := false
    syncedAtSeal := false
    gridObs := none }

/-- First AU-ready event of a concrete gated run. -/
def witnessWaitEvent : AuReadyEvent :=
  ((h264FilterRun witnessCfgWait constFalsePir initialFilterState witnessNaluStream).2).headD
    auEventDefault

/-- First AU-ready event of a concrete ungated run. -/
def witnessNoWaitEvent : AuReadyEvent :=
  ((h264FilterRun witnessCfgNoWait constFalsePir initialFilterState witnessNaluStream).2).headD
    auEventDefault

/-- Macroblock grid observed during the concrete ungated run's AU-ready
event. -/
def witnessNoWaitGrid : MbGrid :=
  match witnessNoWaitEvent.gridObs with
  | some (g, _, _) => g
  | none => []

/-- Helper: unfolding equation of the pipeline run on the empty input. -/
theorem h264FilterRun_nil (c : ARSTREAM2_H264Filter_Config_t)
    (p : List H264Nalu → Bool) (s : H264FilterState) :
    h264FilterRun c p s [] = (s, []) := rfl

/-- Helper: unfolding equation of the pipeline run on a cons input. -/
theorem h264FilterRun_cons (c : ARSTREAM2_H264Filter_Config_t)
    (p : List H264Nalu → Bool) (s : H264FilterState) (n : H264Nalu)
    (ns : List H264Nalu) :
    h264FilterRun c p s (n :: ns) =
      ((h264FilterRun c p (h264FilterStep c p s n).1 ns).1,
       (h264FilterStep c p s n).2 ++
         (h264FilterRun c p (h264FilterStep c p s n).1 ns).2) := rfl

/-- Helper: unfolding equation of the AU body encoder on a singleton body. -/
theorem encodeAuNalus_single (ts : Nat) (t : H264NaluType) :
    encodeAuNalus ts [t] =
      [{ auTimestamp := ts, isLastNaluInAu := true, naluType := t }] := rfl

/-- Helper: unfolding equation of the AU body encoder on a body of at least
two NAL units. -/
theorem encodeAuNalus_cons_cons (ts : Nat) (t u : H264NaluType)
    (rest : List H264NaluType) :
    encodeAuNalus ts (t :: u :: rest) =
      { auTimestamp := ts, isLastNaluInAu := false, naluType := t } ::
        encodeAuNalus ts (u :: rest) := rfl

/-- Helper: unfolding equation of the stream encoder on a cons group list. -/
theorem encodeAuStream_cons (g : Nat × List H264NaluType)
    (gs : List (Nat × List H264NaluType)) :
    encodeAuStream (g :: gs) = encodeAuNalus g.1 g.2 ++ encodeAuStream gs := rfl

/-- Helper: the parameter-set cache update never touches the assembler's open
AU timestamp. -/
theorem observeParamCache_auOpenTs (s : H264FilterState) (n : H264Nalu) :
    (observeParamCache s n).auOpenTs = s.auOpenTs := by
  unfold observeParamCache
  split <;> try rfl
  split <;> rfl

/-- Helper: the parameter-set cache update never touches the last sealed AU
timestamp. -/
theorem observeParamCache_lastAuTs (s : H264FilterState) (n : H264Nalu) :
    (observeParamCache s n).lastAuTs = s.lastAuTs := by
  unfold observeParamCache
  split <;> try rfl
  split <;> rfl

/-- Helper: the parameter-set cache update never touches the collected NAL
unit list. -/
theorem observeParamCache_auNalus (s : H264FilterState) (n : H264Nalu) :
    (observeParamCache s n).auNalus = s.auNalus := by
  unfold observeParamCache
  split <;> try rfl
  split <;> rfl

/-- Helper: with wait-for-sync disabled the gray placeholder stage is
inert. -/
theorem grayIFrameEvents_noWait (c : ARSTREAM2_H264Filter_Config_t)
    (b a : H264FilterState) (h : c.waitForSync = false) :
    grayIFrameEvents c b a = (a, []) := by
  unfold grayIFrameEvents
  simp [h]

/-- Helper: with wait-for-sync disabled the observation stage is exactly the
cache update, with no events. -/
theorem observeParameterSets_noWait (c : ARSTREAM2_H264Filter_Config_t)
    (s : H264FilterState) (n : H264Nalu) (h : c.waitForSync = false) :
    observeParameterSets c s n = (observeParamCache s n, []) := by
  unfold observeParameterSets
  rw [grayIFrameEvents_noWait c s (observeParamCache s n) h]

/-- Helper: run of the pipeline over an appended input splits into the two
runs chained on states, with events concatenated in order. -/
theorem h264FilterRun_append (c : ARSTREAM2_H264Filter_Config_t)
    (p : List H264Nalu → Bool) (xs ys : List H264Nalu) :
    ∀ s, h264FilterRun c p s (xs ++ ys) =
      ((h264FilterRun c p (h264FilterRun c p s xs).1 ys).1,
       (h264FilterRun c p s xs).2 ++
         (h264FilterRun c p (h264FilterRun c p s xs).1 ys).2) := by
  induction xs with
  | nil =>
    intro s
    simp [h264FilterRun_nil]
  | cons n ns ih =>
    intro s
    rw [List.cons_append, h264FilterRun_cons, h264FilterRun_cons, ih]
    simp [List.append_assoc]

/-- Helper: with wait-for-sync disabled, sealing a complete AU emits exactly
one AU-ready event carrying that timestamp and the complete flag, closes the
AU and records the sealed timestamp. -/
theorem sealCurrentAu_noWait_complete (c : ARSTREAM2_H264Filter_Config_t)
    (p : List H264Nalu → Bool) (s : H264FilterState) (ts : Nat)
    (h : c.waitForSync = false) :
    (sealCurrentAu c p s ts true).2.map auEventKey = [(ts, true)] ∧
    (sealCurrentAu c p s ts true).1.auOpenTs = none ∧
    (sealCurrentAu c p s ts true).1.lastAuTs = some ts := by
  unfold sealCurrentAu
  simp only [h, Bool.not_false, Bool.or_true, Bool.true_or, Bool.true_and,
    Bool.and_self, if_true]
  split <;> simp [auEventKey]

/-- Helper: one step on a non-final NAL unit of the currently open AU only
accumulates it. -/
theorem h264FilterStep_continue (c : ARSTREAM2_H264Filter_Config_t)
    (p : List H264Nalu → Bool) (s : H264FilterState) (n : H264Nalu)
    (h : c.waitForSync = false) (hopen : s.auOpenTs = some n.auTimestamp)
    (hlast : n.isLastNaluInAu = false) :
    h264FilterStep c p s n =
      ({ observeParamCache s n with
          auNalus := (observeParamCache s n).auNalus ++ [n] }, []) := by
  unfold h264FilterStep
  rw [observeParameterSets_noWait c s n h]
  simp [processNaluAssemble, observeParamCache_auOpenTs, hopen, hlast]

/-- Helper: one step on the final NAL unit of the currently open AU seals it
as complete. -/
theorem h264FilterStep_final (c : ARSTREAM2_H264Filter_Config_t)
    (p : List H264Nalu → Bool) (s : H264FilterState) (n : H264Nalu)
    (h : c.waitForSync = false) (hopen : s.auOpenTs = some n.auTimestamp)
    (hlast : n.isLastNaluInAu = true) :
    h264FilterStep c p s n =
      sealCurrentAu c p
        { observeParamCache s n with
            auNalus := (observeParamCache s n).auNalus ++ [n] }
        n.auTimestamp true := by
  unfold h264FilterStep
  rw [observeParameterSets_noWait c s n h]
  simp [processNaluAssemble, observeParamCache_auOpenTs, hopen, hlast]

/-- Helper: one step on a non-final NAL unit of a fresh timestamp opens the
AU. -/
theorem h264FilterStep_open (c : ARSTREAM2_H264Filter_Config_t)
    (p : List H264Nalu → Bool) (s : H264FilterState) (n : H264Nalu)
    (h : c.waitForSync = false) (hopen : s.auOpenTs = none)
    (hfresh : staleTs s.lastAuTs n.auTimestamp = false)
    (hlast : n.isLastNaluInAu = false) :
    h264FilterStep c p s n =
      ({ observeParamCache s n with
          auOpenTs := some n.auTimestamp, auNalus := [n] }, []) := by
  unfold h264FilterStep
  rw [observeParameterSets_noWait c s n h]
  simp [processNaluAssemble, observeParamCache_auOpenTs, observeParamCache_lastAuTs,
    hopen, hfresh, hlast]

/-- Helper: one step on a single-NAL-unit AU of a fresh timestamp opens and
immediately seals it as complete. -/
theorem h264FilterStep_openFinal (c : ARSTREAM2_H264Filter_Config_t)
    (p : List H264Nalu → Bool) (s : H264FilterState) (n : H264Nalu)
    (h : c.waitForSync = false) (hopen : s.auOpenTs = none)
    (hfresh : staleTs s.lastAuTs n.auTimestamp = false)
    (hlast : n.isLastNaluInAu = true) :
    h264FilterStep c p s n =
      sealCurrentAu c p
        { observeParamCache s n with
            auOpenTs := some n.auTimestamp, auNalus := [n] }
        n.auTimestamp true := by
  unfold h264FilterStep
  rw [observeParameterSets_noWait c s n h]
  simp [processNaluAssemble, observeParamCache_auOpenTs, observeParamCache_lastAuTs,
    hopen, hfresh, hlast]

/-- Helper: with wait-for-sync disabled, processing the tail of an open AU's
encoded body (ending in the last-in-AU unit) emits exactly one complete
AU-ready event at the AU's timestamp and returns to the idle state. -/
theorem h264FilterRun_collect (c : ARSTREAM2_H264Filter_Config_t)
    (p : List H264Nalu → Bool) (ts : Nat) (h : c.waitForSync = false) :
    ∀ (tys : List H264NaluType) (s : H264FilterState), tys ≠ [] →
      s.auOpenTs = some ts →
      (h264FilterRun c p s (encodeAuNalus ts tys)).2.map auEventKey = [(ts, true)] ∧
      (h264FilterRun c p s (encodeAuNalus ts tys)).1.auOpenTs = none ∧
      (h264FilterRun c p s (encodeAuNalus ts tys)).1.lastAuTs = some ts := by
  intro tys
  induction tys with
  | nil => intro s hne _; exact absurd rfl hne
  | cons t rest ih =>
    intro s _ hopen
    cases rest with
    | nil =>
      rw [encodeAuNalus_single, h264FilterRun_cons,
        h264FilterStep_final c p s _ h hopen rfl, h264FilterRun_nil]
      simp only [List.append_nil]
      exact sealCurrentAu_noWait_complete c p _ ts h
    | cons u rest' =>
      rw [encodeAuNalus_cons_cons, h264FilterRun_cons,
        h264FilterStep_continue c p s _ h hopen rfl]
      simp only [List.nil_append]
      exact ih _ (by simp)
        (by simp [observeParamCache_auOpenTs, hopen])

/-- Helper: with wait-for-sync disabled, processing one encoded AU group from
the idle state at a fresh timestamp emits exactly one complete AU-ready event
at the group's timestamp and returns to the idle state with that timestamp
recorded as sealed. -/
theorem h264FilterRun_group (c : ARSTREAM2_H264Filter_Config_t)
    (p : List H264Nalu → Bool) (h : c.waitForSync = false) (ts : Nat)
    (tys : List H264NaluType) (s : H264FilterState) (hne : tys ≠ [])
    (hopen : s.auOpenTs = none) (hfresh : staleTs s.lastAuTs ts = false) :
    (h264FilterRun c p s (encodeAuNalus ts tys)).2.map auEventKey = [(ts, true)] ∧
    (h264FilterRun c p s (encodeAuNalus ts tys)).1.auOpenTs = none ∧
    (h264FilterRun c p s (encodeAuNalus ts tys)).1.lastAuTs = some ts := by
  cases tys with
  | nil => exact absurd rfl hne
  | cons t rest =>
    cases rest with
    | nil =>
      rw [encodeAuNalus_single, h264FilterRun_cons,
        h264FilterStep_openFinal c p s _ h hopen hfresh rfl, h264FilterRun_nil]
      simp only [List.append_nil]
      exact sealCurrentAu_noWait_complete c p _ ts h
    | cons u rest' =>
      rw [encodeAuNalus_cons_cons, h264FilterRun_cons,
        h264FilterStep_open c p s _ h hopen hfresh rfl]
      simp only [List.nil_append]
      exact h264FilterRun_collect c p ts h (u :: rest') _ (by simp) rfl

/-- Helper: with wait-for-sync disabled, a well-formed lossless stream of AU
groups with strictly increasing timestamps produces exactly the groups'
timestamps as complete AU-ready events, in order. -/
theorem h264FilterRun_stream (c : ARSTREAM2_H264Filter_Config_t)
    (p : List H264Nalu → Bool) (h : c.waitForSync = false) :
    ∀ (gs : List (Nat × List H264NaluType)) (s : H264FilterState),
      (∀ g ∈ gs, g.2 ≠ []) →
      List.Chain' (fun a b => a.1 < b.1) gs →
      s.auOpenTs = none →
      (∀ g ∈ gs.head?, staleTs s.lastAuTs g.1 = false) →
      (h264FilterRun c p s (encodeAuStream gs)).2.map auEventKey =
        gs.map (fun g => (g.1, true)) := by
  intro gs
  induction gs with
  | nil =>
    intro s _ _ _ _
    simp [encodeAuStream, h264FilterRun_nil]
  | cons g gs' ih =>
    intro s hne hchain hopen hfresh
    rw [encodeAuStream_cons, h264FilterRun_append]
    obtain ⟨hev, hopen', hlast'⟩ :=
      h264FilterRun_group c p h g.1 g.2 s (hne g (List.mem_cons_self g gs'))
        hopen (hfresh g rfl)
    have hchain' := List.chain'_cons'.mp hchain
    have hrest := ih (h264FilterRun c p s (encodeAuNalus g.1 g.2)).1
      (fun g' hg' => hne g' (List.mem_cons_of_mem g hg'))
      hchain'.2 hopen'
      (by
        intro g' hg'
        rw [hlast']
        have hlt := hchain'.1 g' hg'
        simp [staleTs]
        omega)
    simp only [List.map_append, hev, hrest, List.map_cons, List.singleton_append]

/-- C1: for every lossless input with well-formed (monotonically grouped,
strictly increasing) timestamps, processed with the sync gate disabled so the
notification path is observable, the assembler invokes the AU-ready
notification exactly once per distinct AU timestamp, in timestamp order, and
every emitted AU is marked complete. -/
theorem C1_one_complete_au_per_timestamp (config : ARSTREAM2_H264Filter_Config_t)
    (pirCond : List H264Nalu → Bool) (gs : List (Nat × List H264NaluType))
    (hWait : config.waitForSync = false)
    (hne : ∀ g ∈ gs, g.2 ≠ [])
    (hmono : List.Chain' (fun a b => a.1 < b.1) gs) :
    (h264FilterRun config pirCond initialFilterState (encodeAuStream gs)).2.map
        auEventKey =
      gs.map (fun g => (g.1, true)) :=
  h264FilterRun_stream config pirCond hWait gs initialFilterState hne hmono rfl
    (fun _ _ => rfl)

/-- Witness for C1 at a concrete lossless two-AU stream. -/
theorem C1_one_complete_au_per_timestamp_witness :
    witnessCfgNoWait.waitForSync = false ∧
    (∀ g ∈ witnessGroups, g.2 ≠ []) ∧
    List.Chain' (fun a b => a.1 < b.1) witnessGroups ∧
    (h264FilterRun witnessCfgNoWait constFalsePir initialFilterState
        (encodeAuStream witnessGroups)).2.map auEventKey =
      witnessGroups.map (fun g => (g.1, true)) :=
  ⟨rfl, by decide, by norm_num [witnessGroups, List.chain'_cons],
   C1_one_complete_au_per_timestamp witnessCfgNoWait constFalsePir witnessGroups
     rfl (by decide) (by norm_num [witnessGroups, List.chain'_cons])⟩

/-- Helper: every event emitted by the gray placeholder stage is the gray
placeholder, emitted with the gate open, and only under the
generate-first-gray-I-frame option. -/
theorem grayIFrameEvents_mem (c : ARSTREAM2_H264Filter_Config_t)
    (b a : H264FilterState) :
    ∀ e ∈ (grayIFrameEvents c b a).2,
      e.isGrayPlaceholder = true ∧ e.syncedAtSeal = true ∧
        c.generateFirstGrayIFrame = true := by
  intro e he
  unfold grayIFrameEvents at he
  split at he
  next hcond =>
    split at he
    · simp only [List.mem_singleton] at he
      subst he
      simp only [Bool.and_eq_true] at hcond
      exact ⟨rfl, rfl, hcond.1.1.1.2⟩
    · simp at he
  next => simp at he

/-- Helper: with wait-for-sync enabled, every event emitted by sealing an AU
was sealed with the sync gate open and is not the gray placeholder. -/
theorem sealCurrentAu_mem_wait (c : ARSTREAM2_H264Filter_Config_t)
    (p : List H264Nalu → Bool) (s : H264FilterState) (ts : Nat) (comp : Bool)
    (hW : c.waitForSync = true) :
    ∀ e ∈ (sealCurrentAu c p s ts comp).2,
      e.syncedAtSeal = true ∧ e.isGrayPlaceholder = false := by
  intro e he
  unfold sealCurrentAu at he
  dsimp only at he
  split at he
  next hcond =>
    have hsync : filterSynced s = true := by
      rw [hW] at hcond
      simp only [Bool.not_true, Bool.or_false, Bool.and_eq_true] at hcond
      exact hcond.1
    split at he <;> simp only [List.mem_singleton] at he <;> subst he <;>
      exact ⟨hsync, rfl⟩
  next => simp at he

/-- Helper: with wait-for-sync enabled, every event emitted by the assembler
transition was sealed with the sync gate open and is not the gray
placeholder. -/
theorem processNaluAssemble_mem_wait (c : ARSTREAM2_H264Filter_Config_t)
    (p : List H264Nalu → Bool) (s : H264FilterState) (n : H264Nalu)
    (hW : c.waitForSync = true) :
    ∀ e ∈ (processNaluAssemble c p s n).2,
      e.syncedAtSeal = true ∧ e.isGrayPlaceholder = false := by
  intro e he
  unfold processNaluAssemble at he
  dsimp only at he
  split at he
  · split at he
    · simp at he
    · split at he
      · exact sealCurrentAu_mem_wait c p _ _ _ hW e he
      · simp at he
  · split at he
    · split at he
      · exact sealCurrentAu_mem_wait c p _ _ _ hW e he
      · simp at he
    · split at he
      · split at he
        · dsimp only at he
          rcases List.mem_append.mp he with h1 | h2
          · exact sealCurrentAu_mem_wait c p _ _ _ hW e h1
          · exact sealCurrentAu_mem_wait c p _ _ _ hW e h2
        · dsimp only at he
          exact sealCurrentAu_mem_wait c p _ _ _ hW e he
      · simp at he

/-- Helper: with wait-for-sync enabled, every event emitted by one pipeline
step is either the gray placeholder (requiring the option) or an AU sealed
with the gate open. -/
theorem h264FilterStep_mem_wait (c : ARSTREAM2_H264Filter_Config_t)
    (p : List H264Nalu → Bool) (s : H264FilterState) (n : H264Nalu)
    (hW : c.waitForSync = true) :
    ∀ e ∈ (h264FilterStep c p s n).2,
      (e.isGrayPlaceholder = true ∧ c.generateFirstGrayIFrame = true) ∨
      (e.syncedAtSeal = true ∧ e.isGrayPlaceholder = false) := by
  intro e he
  unfold h264FilterStep at he
  dsimp only at he
  rcases List.mem_append.mp he with h1 | h2
  · have hobs := grayIFrameEvents_mem c s (observeParamCache s n) e h1
    exact Or.inl ⟨hobs.1, hobs.2.2⟩
  · exact Or.inr (processNaluAssemble_mem_wait c p _ n hW e h2)

/-- Helper: with wait-for-sync enabled, every event of a whole pipeline run
is either the gray placeholder (requiring the option) or an AU sealed with
the gate open. -/
theorem h264FilterRun_mem_wait (c : ARSTREAM2_H264Filter_Config_t)
    (p : List H264Nalu → Bool) (hW : c.waitForSync = true) :
    ∀ (input : List H264Nalu) (s : H264FilterState),
      ∀ e ∈ (h264FilterRun c p s input).2,
        (e.isGrayPlaceholder = true ∧ c.generateFirstGrayIFrame = true) ∨
        (e.syncedAtSeal = true ∧ e.isGrayPlaceholder = false) := by
  intro input
  induction input with
  | nil =>
    intro s e he
    simp [h264FilterRun_nil] at he
  | cons n ns ih =>
    intro s e he
    rw [h264FilterRun_cons] at he
    dsimp only at he
    rcases List.mem_append.mp he with h1 | h2
    · exact h264FilterStep_mem_wait c p s n hW e h1
    · exact ih _ e h2

/-- C2: with wait-for-sync enabled, no AU sealed while the sync gate is false
ever reaches the AU-ready notification: every delivered event that is not the
synthetic gray placeholder was sealed with the gate open, and a gray
placeholder is delivered only when generate-first-gray-I-frame is enabled. -/
theorem C2_sync_gate_suppresses_output (config : ARSTREAM2_H264Filter_Config_t)
    (pirCond : List H264Nalu → Bool) (input : List H264Nalu) (e : AuReadyEvent)
    (hW : config.waitForSync = true)
    (he : e ∈ (h264FilterRun config pirCond initialFilterState input).2) :
    (e.isGrayPlaceholder = false → e.syncedAtSeal = true) ∧
    (e.isGrayPlaceholder = true → config.generateFirstGrayIFrame = true) := by
  rcases h264FilterRun_mem_wait config pirCond hW input initialFilterState e he with
    ⟨hg, hf⟩ | ⟨hs, hg⟩
  · constructor
    · intro hng
      simp [hg] at hng
    · intro _
      exact hf
  · constructor
    · intro _
      exact hs
    · intro hgt
      simp [hg] at hgt

/-- Witness for C2: the single AU-ready event of a concrete gated run that
delivers SPS, PPS and an IDR AU. -/
theorem C2_sync_gate_suppresses_output_witness :
    witnessCfgWait.waitForSync = true ∧
    witnessWaitEvent ∈
      (h264FilterRun witnessCfgWait constFalsePir initialFilterState
        witnessNaluStream).2 ∧
    ((witnessWaitEvent.isGrayPlaceholder = false →
        witnessWaitEvent.syncedAtSeal = true) ∧
     (witnessWaitEvent.isGrayPlaceholder = true →
        witnessCfgWait.generateFirstGrayIFrame = true)) :=
  ⟨rfl, by decide,
   C2_sync_gate_suppresses_output witnessCfgWait constFalsePir witnessNaluStream
     witnessWaitEvent rfl (by decide)⟩

/-- Helper: marking a macroblock range preserves the grid's cell count. -/
theorem markMbRange_length (c : Nat) :
    ∀ (g : MbGrid) (f : Nat) (st : eARSTREAM2_H264_FILTER_MACROBLOCK_STATUS),
      (markMbRange g f c st).length = g.length := by
  induction c with
  | zero => intro g f st; rfl
  | succ k ih =>
    intro g f st
    show (markMbRange (g.set f st) (f + 1) k st).length = g.length
    rw [ih, List.length_set]

/-- Helper: refreshing the grid from an AU's slice coverage preserves the
grid's cell count. -/
theorem refreshMbGrid_length (nalus : List H264Nalu) :
    ∀ g : MbGrid, (refreshMbGrid g nalus).length = g.length := by
  induction nalus with
  | nil => intro g; rfl
  | cons n ns ih =>
    intro g
    unfold refreshMbGrid
    split
    · rw [ih, markMbRange_length]
    · rw [ih]

/-- Helper: the parameter-set cache update either leaves the dimensions and
grid unchanged or installs matching dimensions and a freshly sized grid. -/
theorem observeParamCache_dims_grid (s : H264FilterState) (n : H264Nalu) :
    ((observeParamCache s n).mbDims = s.mbDims ∧
      (observeParamCache s n).mbGrid = s.mbGrid) ∨
    (∃ w h, (observeParamCache s n).mbDims = some (w, h) ∧
      (observeParamCache s n).mbGrid =
        some (List.replicate (w * h) .UNKNOWN)) := by
  unfold observeParamCache
  split
  · split
    · exact Or.inl ⟨rfl, rfl⟩
    · exact Or.inr ⟨_, _, rfl, rfl⟩
  · exact Or.inl ⟨rfl, rfl⟩
  · exact Or.inl ⟨rfl, rfl⟩

/-- Helper: the parameter-set cache update preserves the grid size
invariant: an SPS with new dimensions resizes the grid to match. -/
theorem observeParamCache_grid (s : H264FilterState) (n : H264Nalu)
    (hinv : gridSizedInv s) : gridSizedInv (observeParamCache s n) := by
  unfold gridSizedInv
  intro w' h' g hd hg
  rcases observeParamCache_dims_grid s n with ⟨hdm, hgm⟩ | ⟨w, h, hdm, hgm⟩
  · rw [hdm] at hd
    rw [hgm] at hg
    exact hinv w' h' g hd hg
  · rw [hdm] at hd
    rw [hgm] at hg
    simp only [Option.some.injEq, Prod.mk.injEq] at hd hg
    rw [← hg, List.length_replicate, hd.1, hd.2]

/-- Helper: the gray placeholder stage preserves the grid size invariant and
only exposes a grid whose cell count matches its dimensions. -/
theorem grayIFrameEvents_grid (c : ARSTREAM2_H264Filter_Config_t)
    (b a : H264FilterState) (hinv : gridSizedInv a) :
    gridSizedInv (grayIFrameEvents c b a).1 ∧
    ∀ e ∈ (grayIFrameEvents c b a).2, ∀ g w h,
      e.gridObs = some (g, w, h) → g.length = w * h := by
  unfold grayIFrameEvents
  split
  · split
    · constructor
      · exact hinv
      · intro e he g w' h' hobs
        simp only [List.mem_singleton] at he
        subst he
        simp only [Option.some.injEq, Prod.mk.injEq] at hobs
        rw [← hobs.1, List.length_replicate, hobs.2.1, hobs.2.2]
    · exact ⟨hinv, by intro e he; simp at he⟩
  · exact ⟨hinv, by intro e he; simp at he⟩

/-- Helper: sealing an AU preserves the grid size invariant and only exposes
a grid whose cell count matches the active SPS dimensions. -/
theorem sealCurrentAu_grid (c : ARSTREAM2_H264Filter_Config_t)
    (p : List H264Nalu → Bool) (s : H264FilterState) (ts : Nat) (comp : Bool)
    (hinv : gridSizedInv s) :
    gridSizedInv (sealCurrentAu c p s ts comp).1 ∧
    ∀ e ∈ (sealCurrentAu c p s ts comp).2, ∀ g w h,
      e.gridObs = some (g, w, h) → g.length = w * h := by
  unfold sealCurrentAu
  dsimp only
  split
  · split
    next w h heq =>
      have hbase :
          ((s.mbGrid).getD (List.replicate (w * h) .UNKNOWN)).length = w * h := by
        rcases hmg : s.mbGrid with _ | g0
        · simp
        · simpa using hinv w h g0 heq hmg
      have hlen :
          (refreshMbGrid ((s.mbGrid).getD (List.replicate (w * h) .UNKNOWN))
            s.auNalus).length = w * h := by
        rw [refreshMbGrid_length]
        exact hbase
      constructor
      · intro w' h' g hd hg
        dsimp only at hd hg
        rw [heq] at hd
        simp only [Option.some.injEq, Prod.mk.injEq] at hd hg
        rw [← hg, hlen, hd.1, hd.2]
      · intro e he g w' h' hobs
        simp only [List.mem_singleton] at he
        subst he
        dsimp only at hobs
        simp only [Option.some.injEq, Prod.mk.injEq] at hobs
        rw [← hobs.1, hlen, hobs.2.1, hobs.2.2]
    next hnone =>
      constructor
      · intro w' h' g hd hg
        dsimp only at hd hg
        exact hinv w' h' g hd hg
      · intro e he g w' h' hobs
        simp only [List.mem_singleton] at he
        subst he
        simp at hobs
  · constructor
    · intro w' h' g hd hg
      dsimp only at hd hg
      exact hinv w' h' g hd hg
    · intro e he
      simp at he

/-- Helper: the assembler transition preserves the grid size invariant and
only exposes grids whose cell count matches the active SPS dimensions. -/
theorem processNaluAssemble_grid (c : ARSTREAM2_H264Filter_Config_t)
    (p : List H264Nalu → Bool) (s : H264FilterState) (n : H264Nalu)
    (hinv : gridSizedInv s) :
    gridSizedInv (processNaluAssemble c p s n).1 ∧
    ∀ e ∈ (processNaluAssemble c p s n).2, ∀ g w h,
      e.gridObs = some (g, w, h) → g.length = w * h := by
  unfold processNaluAssemble
  dsimp only
  split
  · split
    · exact ⟨fun w h g hd hg => hinv w h g hd hg, by intro e he; simp at he⟩
    · split
      · exact sealCurrentAu_grid c p _ _ _ (fun w h g hd hg => hinv w h g hd hg)
      · exact ⟨fun w h g hd hg => hinv w h g hd hg, by intro e he; simp at he⟩
  · next ts hts =>
    split
    · split
      · exact sealCurrentAu_grid c p _ _ _ (fun w h g hd hg => hinv w h g hd hg)
      · exact ⟨fun w h g hd hg => hinv w h g hd hg, by intro e he; simp at he⟩
    · split
      · have h1 := sealCurrentAu_grid c p s ts false hinv
        split
        · constructor
          · exact (sealCurrentAu_grid c p
              { (sealCurrentAu c p s ts false).1 with
                  auOpenTs := some n.auTimestamp, auNalus := [n] }
              n.auTimestamp true
              (fun w h g hd hg => h1.1 w h g hd hg)).1
          · intro e he g w h hgw
            rcases List.mem_append.mp he with hm | hm
            · exact h1.2 e hm g w h hgw
            · exact (sealCurrentAu_grid c p
                { (sealCurrentAu c p s ts false).1 with
                    auOpenTs := some n.auTimestamp, auNalus := [n] }
                n.auTimestamp true
                (fun w' h' g' hd hg => h1.1 w' h' g' hd hg)).2 e hm g w h hgw
        · constructor
          · exact fun w h g hd hg => h1.1 w h g hd hg
          · intro e he g w h hgw
            exact h1.2 e he g w h hgw
      · exact ⟨fun w h g hd hg => hinv w h g hd hg, by intro e he; simp at he⟩

/-- Helper: one pipeline step preserves the grid size invariant and only
exposes grids whose cell count matches the active SPS dimensions. -/
theorem h264FilterStep_grid (c : ARSTREAM2_H264Filter_Config_t)
    (p : List H264Nalu → Bool) (s : H264FilterState) (n : H264Nalu)
    (hinv : gridSizedInv s) :
    gridSizedInv (h264FilterStep c p s n).1 ∧
    ∀ e ∈ (h264FilterStep c p s n).2, ∀ g w h,
      e.gridObs = some (g, w, h) → g.length = w * h := by
  have hobs := grayIFrameEvents_grid c s (observeParamCache s n)
    (observeParamCache_grid s n hinv)
  have hasm := processNaluAssemble_grid c p (observeParameterSets c s n).1 n hobs.1
  constructor
  · exact hasm.1
  · intro e he g w h hgw
    unfold h264FilterStep at he
    dsimp only at he
    rcases List.mem_append.mp he with hm | hm
    · exact hobs.2 e hm g w h hgw
    · exact hasm.2 e hm g w h hgw

/-- Helper: a whole pipeline run preserves the grid size invariant and only
exposes grids whose cell count matches the active SPS dimensions. -/
theorem h264FilterRun_grid (c : ARSTREAM2_H264Filter_Config_t)
    (p : List H264Nalu → Bool) :
    ∀ (input : List H264Nalu) (s : H264FilterState), gridSizedInv s →
      gridSizedInv (h264FilterRun c p s input).1 ∧
      ∀ e ∈ (h264FilterRun c p s input).2, ∀ g w h,
        e.gridObs = some (g, w, h) → g.length = w * h := by
  intro input
  induction input with
  | nil =>
    intro s hinv
    exact ⟨hinv, by intro e he; simp [h264FilterRun_nil] at he⟩
  | cons n ns ih =>
    intro s hinv
    rw [h264FilterRun_cons]
    dsimp only
    have hstep := h264FilterStep_grid c p s n hinv
    have hrest := ih _ hstep.1
    refine ⟨hrest.1, ?_⟩
    intro e he g w h hgw
    rcases List.mem_append.mp he with hm | hm
    · exact hstep.2 e hm g w h hgw
    · exact hrest.2 e hm g w h hgw

/-- C3: whenever the macroblock status grid is observable during an AU-ready
notification, its cell count equals the active SPS width-in-macroblocks
times height-in-macroblocks; the invariant holds of the filter state after
every run, and observing an SPS with different dimensions invalidates and
resizes the grid at the observation itself, before any later AU can be
sealed. -/
theorem C3_grid_size_matches_sps (config : ARSTREAM2_H264Filter_Config_t)
    (pirCond : List H264Nalu → Bool) (input : List H264Nalu) :
    gridSizedInv (h264FilterRun config pirCond initialFilterState input).1 ∧
    (∀ e ∈ (h264FilterRun config pirCond initialFilterState input).2,
      ∀ g w h, e.gridObs = some (g, w, h) → g.length = w * h) ∧
    (∀ (s : H264FilterState) (n : H264Nalu) (w h : Nat),
      n.naluType = .sps w h → s.mbDims ≠ some (w, h) →
      (observeParamCache s n).mbDims = some (w, h) ∧
      (observeParamCache s n).mbGrid =
        some (List.replicate (w * h) .UNKNOWN)) := by
  have hinit : gridSizedInv initialFilterState := by
    intro w h g hd _
    simp [initialFilterState] at hd
  refine ⟨(h264FilterRun_grid config pirCond input initialFilterState hinit).1,
    (h264FilterRun_grid config pirCond input initialFilterState hinit).2, ?_⟩
  intro s n w h hn hne
  unfold observeParamCache
  rw [hn]
  dsimp only
  rw [if_neg hne]
  exact ⟨rfl, rfl⟩

/-- Witness for C3: the grid observed during the AU-ready event of a concrete
run has exactly 2 times 2 cells, matching the SPS dimensions. -/
theorem C3_grid_size_matches_sps_witness :
    witnessNoWaitEvent.gridObs = some (witnessNoWaitGrid, 2, 2) ∧
    witnessNoWaitGrid.length = 2 * 2 :=
  ⟨by decide,
   (C3_grid_size_matches_sps witnessCfgNoWait constFalsePir witnessNaluStream).2.1
     witnessNoWaitEvent (by decide) witnessNoWaitGrid 2 2 (by decide)⟩

/-- C7: invoking buffer cancellation (the cancel cause, the invalidate-buffer
operation and the stop operation) on an already-cancelled target is a no-op
and not an error: applying each operation twice leaves the state equal to
applying it once, and the cancel cause never reports an error. -/
theorem C7_cancellation_idempotent (r : ARSTREAM2_RtpReceiver_t) (b : NaluBufferRef) :
    ARSTREAM2_RtpReceiver_Stop (ARSTREAM2_RtpReceiver_Stop r) =
      ARSTREAM2_RtpReceiver_Stop r ∧
    ARSTREAM2_RtpReceiver_InvalidateNaluBuffer
        (ARSTREAM2_RtpReceiver_InvalidateNaluBuffer r) =
      ARSTREAM2_RtpReceiver_InvalidateNaluBuffer r ∧
    cancelNaluBuffer (cancelNaluBuffer b).1 = cancelNaluBuffer b ∧
    (cancelNaluBuffer b).2 = .OK := by
  refine ⟨rfl, rfl, ?_, ?_⟩ <;> cases b <;> rfl

/-- C8: initializing with generate-first-gray-I-frame enabled but
wait-for-sync disabled is an invalid parameter combination: the Init call
itself reports ARSTREAM2_ERROR_BAD_PARAMETERS synchronously and, the result
being an error value, no instance (not even a partial one) is produced. -/
theorem C8_init_rejects_gray_without_wait (config : ARSTREAM2_H264Filter_Config_t)
    (hg : config.generateFirstGrayIFrame = true) (hw : config.waitForSync = false) :
    ARSTREAM2_H264Filter_Init config = .error .ERROR_BAD_PARAMETERS := by
  simp [ARSTREAM2_H264Filter_Init, hg, hw]

/-- Witness for C8 at a concrete invalid configuration. -/
theorem C8_init_rejects_gray_without_wait_witness :
    witnessCfgGrayNoWait.generateFirstGrayIFrame = true ∧
    witnessCfgGrayNoWait.waitForSync = false ∧
    ARSTREAM2_H264Filter_Init witnessCfgGrayNoWait = .error .ERROR_BAD_PARAMETERS :=
  ⟨rfl, rfl, C8_init_rejects_gray_without_wait witnessCfgGrayNoWait rfl rfl⟩

/-- C10: deleting a still-running receiver returns ARSTREAM2_ERROR_BUSY and
leaves the receiver pointer unchanged (nothing is freed on the error path);
only a successful delete sets the pointer to none. -/
theorem C10_delete_busy_atomic (r : ARSTREAM2_RtpReceiver_t) :
    (r.running = true →
      ARSTREAM2_RtpReceiver_Delete (some r) = (.ERROR_BUSY, some r)) ∧
    (r.running = false →
      ARSTREAM2_RtpReceiver_Delete (some r) = (.OK, none)) := by
  constructor <;> intro h <;> simp [ARSTREAM2_RtpReceiver_Delete, h]

/-- Witness for C10 at a concrete running receiver. -/
theorem C10_delete_busy_atomic_witness :
    ARSTREAM2_RtpReceiver_Delete
        (some { running := true, naluBufferCancelled := false, invalidateRequested := false }) =
      (.ERROR_BUSY,
       some { running := true, naluBufferCancelled := false, invalidateRequested := false }) :=
  (C10_delete_busy_atomic
    { running := true, naluBufferCancelled := false, invalidateRequested := false }).1 rfl

/-- C5: on a mid-write buffer overflow the core issues a buffer-too-small
request; when the consumer returns a buffer of at least the requested size
the already-written bytes are in the new buffer on resume and the old buffer
stays referenced until the copy-complete cause, which is an event distinct
from the resize request; a smaller or absent reply skips the current NAL unit
and is never fatal. -/
theorem C5_overflow_negotiation (writtenBytes : List Nat) (requestedSize : Nat) :
    (∀ newSize, requestedSize ≤ newSize →
      handleNaluBufferOverflow writtenBytes requestedSize (some newSize) =
        { callbackCauses := [.NALU_BUFFER_TOO_SMALL, .NALU_COPY_COMPLETE]
          resumedBufferBytes := some writtenBytes
          oldBufferReleaseCause := some .NALU_COPY_COMPLETE
          naluSkipped := false
          fatal := false }) ∧
    (∀ newSize, newSize < requestedSize →
      (handleNaluBufferOverflow writtenBytes requestedSize (some newSize)).naluSkipped = true ∧
      (handleNaluBufferOverflow writtenBytes requestedSize (some newSize)).fatal = false) ∧
    ((handleNaluBufferOverflow writtenBytes requestedSize none).naluSkipped = true ∧
      (handleNaluBufferOverflow writtenBytes requestedSize none).fatal = false) ∧
    eARSTREAM2_RTP_RECEIVER_CAUSE.NALU_COPY_COMPLETE ≠ .NALU_BUFFER_TOO_SMALL := by
  refine ⟨?_, ?_, ?_, ?_⟩
  · intro newSize hle
    simp [handleNaluBufferOverflow, Nat.not_lt.mpr hle]
  · intro newSize hlt
    simp [handleNaluBufferOverflow, hlt]
  · simp [handleNaluBufferOverflow]
  · simp

/-- Witness for C5 at a concrete overflow with a large-enough reply and a
concrete too-small reply. -/
theorem C5_overflow_negotiation_witness :
    ((4 : Nat) ≤ 8 ∧
      handleNaluBufferOverflow [1, 2] 4 (some 8) =
        { callbackCauses := [.NALU_BUFFER_TOO_SMALL, .NALU_COPY_COMPLETE]
          resumedBufferBytes := some [1, 2]
          oldBufferReleaseCause := some .NALU_COPY_COMPLETE
          naluSkipped := false
          fatal := false }) ∧
    ((3 : Nat) < 4 ∧
      (handleNaluBufferOverflow [1, 2] 4 (some 3)).naluSkipped = true ∧
      (handleNaluBufferOverflow [1, 2] 4 (some 3)).fatal = false) :=
  ⟨⟨by decide, (C5_overflow_negotiation [1, 2] 4).1 8 (by decide)⟩,
   ⟨by decide, (C5_overflow_negotiation [1, 2] 4).2.1 3 (by decide)⟩⟩

/-- C9: GetSpsPps returns ARSTREAM2_ERROR_WAITING_FOR_SYNC whenever no
SPS/PPS pair is cached; once both are cached, a call with both buffer
pointers NULL reports the required sizes without filling any buffer, and a
subsequent call with buffers of at least those sizes succeeds and fills
them. -/
theorem C9_getSpsPps_round_trip (cache : SpsPpsCache) :
    ((cache.sps = none ∨ cache.pps = none) →
      ∀ sb pb, ARSTREAM2_H264Filter_GetSpsPps cache sb pb =
        .failed .ERROR_WAITING_FOR_SYNC) ∧
    (∀ s p, cache.sps = some s → cache.pps = some p →
      ARSTREAM2_H264Filter_GetSpsPps cache none none = .sizeQuery s.length p.length) ∧
    (∀ s p cs cp, cache.sps = some s → cache.pps = some p →
      s.length ≤ cs → p.length ≤ cp →
      ARSTREAM2_H264Filter_GetSpsPps cache (some cs) (some cp) = .filled s p) := by
  refine ⟨?_, ?_, ?_⟩
  · intro hnone sb pb
    rcases hnone with h | h <;>
      rcases hs : cache.sps with _ | s <;> rcases hp : cache.pps with _ | p <;>
        simp_all [ARSTREAM2_H264Filter_GetSpsPps]
  · intro s p hs hp
    simp [ARSTREAM2_H264Filter_GetSpsPps, hs, hp]
  · intro s p cs cp hs hp hcs hcp
    simp [ARSTREAM2_H264Filter_GetSpsPps, hs, hp, hcs, hcp]

/-- Witness for C9: the empty cache reports waiting-for-sync, and a concrete
cached pair supports the size-query-then-fill round trip. -/
theorem C9_getSpsPps_round_trip_witness :
    (ARSTREAM2_H264Filter_GetSpsPps { sps := none, pps := none } none none =
      .failed .ERROR_WAITING_FOR_SYNC) ∧
    (ARSTREAM2_H264Filter_GetSpsPps { sps := some [7, 8], pps := some [9] } none none =
      .sizeQuery 2 1) ∧
    (ARSTREAM2_H264Filter_GetSpsPps { sps := some [7, 8], pps := some [9] }
        (some 2) (some 1) = .filled [7, 8] [9]) :=
  ⟨(C9_getSpsPps_round_trip { sps := none, pps := none }).1 (Or.inl rfl) none none,
   (C9_getSpsPps_round_trip { sps := some [7, 8], pps := some [9] }).2.1 [7, 8] [9] rfl rfl,
   (C9_getSpsPps_round_trip { sps := some [7, 8], pps := some [9] }).2.2 [7, 8] [9] 2 1
     rfl rfl (by decide) (by decide)⟩

/-- Helper for C4: running the receiver over the trailing fragments of one
NAL unit (consecutive sequence numbers, final fragment last) attaches exactly
the pending missing-packet count and resets it to zero. -/
theorem rtpReceiverRun_contiguous_fragments (ts : Nat) :
    ∀ (m start pend : Nat),
      rtpReceiverRun { lastSeq := some start, pendingMissing := pend }
          (mkNaluFragments (start + 1) ts m) =
        ({ lastSeq := some (start + 1 + m), pendingMissing := 0 },
         [{ auTimestamp := ts, missingPacketsBefore := pend }]) := by
  intro m
  induction m with
  | zero =>
    intro start pend
    simp [mkNaluFragments, rtpReceiverRun, rtpReceiverProcessPacket, seqGapAfter,
      Nat.add_sub_cancel_left]
  | succ k ih =>
    intro start pend
    have harith : start + 1 + 1 + k = start + 1 + (k + 1) := by omega
    simp [mkNaluFragments, rtpReceiverRun, rtpReceiverProcessPacket, seqGapAfter,
      Nat.add_sub_cancel_left, ih (start + 1) pend, harith]

/-- C4: a gap of exactly K consecutive missing sequence numbers immediately
before the packets carrying a NAL unit yields missingPacketsBefore = K for
that NAL unit (for any fragment count m and any timestamp), and the counter
attached to a completed NAL unit is reset to zero at that completion, so a
prior AU's accumulated count can never leak into the next AU's first NAL
unit. -/
theorem C4_missing_packet_count (l K ts m : Nat) :
    rtpReceiverRun { lastSeq := some l, pendingMissing := 0 }
        (mkNaluFragments (l + K + 1) ts m) =
      ({ lastSeq := some (l + K + 1 + m), pendingMissing := 0 },
       [{ auTimestamp := ts, missingPacketsBefore := K }]) ∧
    (∀ (s : RtpRecvState) (p : RtpNaluPacket) (s' : RtpRecvState) (n : TaggedNalu),
      rtpReceiverProcessPacket s p = (s', some n) → s'.pendingMissing = 0) := by
  constructor
  · have hgap : seqGapAfter (some l) (l + K + 1) = K := by
      simp [seqGapAfter]
      omega
    cases m with
    | zero =>
      simp [mkNaluFragments, rtpReceiverRun, rtpReceiverProcessPacket, hgap]
    | succ k =>
      have harith : l + K + 1 + 1 + k = l + K + 1 + (k + 1) := by omega
      simp [mkNaluFragments, rtpReceiverRun, rtpReceiverProcessPacket, hgap,
        rtpReceiverRun_contiguous_fragments ts k (l + K + 1) K, harith]
  · intro s p s' n h
    unfold rtpReceiverProcessPacket at h
    by_cases hl : p.isLastFragment = true
    · simp [hl] at h
      rw [← h.1]
    · simp [hl] at h

/-- Witness for C4: a gap of 3 missing packets before a two-fragment NAL unit
yields count 3, and completing a NAL unit resets the pending counter. -/
theorem C4_missing_packet_count_witness :
    rtpReceiverRun { lastSeq := some 10, pendingMissing := 0 }
        (mkNaluFragments 14 7 1) =
      ({ lastSeq := some 15, pendingMissing := 0 },
       [{ auTimestamp := 7, missingPacketsBefore := 3 }]) ∧
    (RtpRecvState.pendingMissing { lastSeq := some 20, pendingMissing := 0 } = 0) :=
  ⟨(C4_missing_packet_count 10 3 7 1).1,
   (C4_missing_packet_count 10 3 7 1).2
     { lastSeq := some 14, pendingMissing := 5 }
     { seq := 20, auTimestamp := 7, isLastFragment := true }
     { lastSeq := some 20, pendingMissing := 0 }
     { auTimestamp := 7, missingPacketsBefore := 10 } (by decide)⟩

/-- C6: sync-type classification on seal is a fixed priority, total on every
(also mixed, non-conformant) NAL unit list: IDR if any contained NAL unit is
an IDR slice, otherwise I-frame if any slice is intra-only, otherwise
periodic-intra-refresh start if the configured marker condition holds,
otherwise none; and every AU-ready event emitted by sealing carries exactly
this classification of the sealed AU's NAL units. -/
theorem C6_sync_type_priority :
    (∀ (nalus : List H264Nalu) (pirMarker : Bool),
      (nalus.any naluIsIdrSlice = true →
        auSyncTypeOnSeal nalus pirMarker = .IDR) ∧
      (nalus.any naluIsIdrSlice = false → nalus.any naluIsIntraSlice = true →
        auSyncTypeOnSeal nalus pirMarker = .IFRAME) ∧
      (nalus.any naluIsIdrSlice = false → nalus.any naluIsIntraSlice = false →
        pirMarker = true → auSyncTypeOnSeal nalus pirMarker = .PIR_START) ∧
      (nalus.any naluIsIdrSlice = false → nalus.any naluIsIntraSlice = false →
        pirMarker = false → auSyncTypeOnSeal nalus pirMarker = .NONE)) ∧
    (∀ (c : ARSTREAM2_H264Filter_Config_t) (p : List H264Nalu → Bool)
        (s : H264FilterState) (ts : Nat) (comp : Bool),
      ∀ e ∈ (sealCurrentAu c p s ts comp).2,
        e.auSyncType = auSyncTypeOnSeal s.auNalus (p s.auNalus)) := by
  constructor
  · intro nalus pirMarker
    refine ⟨?_, ?_, ?_, ?_⟩
    · intro h1
      simp [auSyncTypeOnSeal, h1]
    · intro h1 h2
      simp [auSyncTypeOnSeal, h1, h2]
    · intro h1 h2 h3
      simp [auSyncTypeOnSeal, h1, h2, h3]
    · intro h1 h2 h3
      simp [auSyncTypeOnSeal, h1, h2, h3]
  · intro c p s ts comp e he
    unfold sealCurrentAu at he
    rcases hcond : (filterSynced s || !c.waitForSync) && (comp || c.outputIncompleteAu) with _ | _
    · simp [hcond] at he
    · simp [hcond] at he
      rcases hd : s.mbDims with _ | wh
      · simp [hd] at he
        simp [he]
      · rcases wh with ⟨w, h⟩
        simp [hd] at he
        simp [he]

/-- Witness for C6 at a concrete mixed (non-conformant) AU holding an IDR
slice, an intra slice and an inter slice: IDR takes precedence. -/
theorem C6_sync_type_priority_witness :
    ([({ auTimestamp := 0, isLastNaluInAu := false, naluType := .sliceInter 0 2 } : H264Nalu),
      { auTimestamp := 0, isLastNaluInAu := false, naluType := .sliceIntra 2 1 },
      { auTimestamp := 0, isLastNaluInAu := true, naluType := .sliceIdr 3 1 }].any
        naluIsIdrSlice = true) ∧
    auSyncTypeOnSeal
      [{ auTimestamp := 0, isLastNaluInAu := false, naluType := .sliceInter 0 2 },
       { auTimestamp := 0, isLastNaluInAu := false, naluType := .sliceIntra 2 1 },
       { auTimestamp := 0, isLastNaluInAu := true, naluType := .sliceIdr 3 1 }] true =
      .IDR :=
  ⟨by decide,
   (C6_sync_type_priority.1
     [{ auTimestamp := 0, isLastNaluInAu := false, naluType := .sliceInter 0 2 },
      { auTimestamp := 0, isLastNaluInAu := false, naluType := .sliceIntra 2 1 },
      { auTimestamp := 0, isLastNaluInAu := true, naluType := .sliceIdr 3 1 }] true).1
     (by decide)⟩

end ARStream2
